/-
Verification of the NAVIA real-time client core: the narration arbiter
(RealtimeTtsManager), the socket session (RealtimeWebSocket) and the
frame-capture scheduler (useRealtimeDetection's interval callback).

The definitions below are a shallow embedding of the TypeScript sources:
  - src/navia-mobile/src/services/realtimeTts.ts  (RealtimeTtsManager)
  - the websocket client (RealtimeWebSocket)
  - src/navia-mobile/src/hooks/useRealtimeDetection.ts (capture loop)
Time is modelled as a Nat of milliseconds passed in explicitly (Date.now()
at the call site); asynchronous speech playback is modelled by splitting
`doSpeak` into its synchronous start (flag set, timestamp recorded) and its
completion (promise resolved, `finally` clause run).
-/
import Mathlib

/-- Operating mode of the client, from the union type
`NaviaMode = 'navegacion' | 'exploracion' | 'lectura' | 'riesgo'`. -/
inductive NaviaMode where
  | navegacion
  | exploracion
  | lectura
  | riesgo
deriving DecidableEq

/-- The `changes` payload consumed by the navigation narration policy.
Only the fields the arbiter reads are carried. -/
structure RealtimeChanges where
  appeared : List String
  disappeared : List String
  has_significant_change : Bool
deriving DecidableEq

/-- Risk-mode payload: `{ has_danger, priority, alert_text }`. -/
structure RiskData where
  has_danger : Bool
  priority : String
  alert_text : String
deriving DecidableEq

/-- `REALTIME_CONFIG.ttsMinInterval` from constants/config: 3000 ms. -/
def ttsMinInterval : Nat := 3000

/-- Mutable fields of `RealtimeTtsManager`. -/
structure TtsState where
  lastSpeakTime : Nat
  isSpeaking : Bool
  mode : NaviaMode
  lastSummary : String
deriving DecidableEq

/-- Initial state of a freshly constructed manager. -/
def initTtsState : TtsState :=
  { lastSpeakTime := 0, isSpeaking := false,
    mode := NaviaMode.navegacion, lastSummary := "" }

/-- What a call to `speakResult` decided: either it returned without
speaking, or it started an utterance of `text`; `stoppedCurrent` records
that any in-progress utterance was forcibly stopped (Speech.stop with the
speaking flag cleared) before the new utterance started. -/
inductive SpeakOutcome where
  | skip
  | speak (text : String) (stoppedCurrent : Bool)
deriving DecidableEq

/-- Result of the awaited speech playback: the device either completed
normally (`onDone`) or signalled a playback error (`onError`). -/
inductive SpeechOutcome where
  | done
  | error
deriving DecidableEq

namespace RealtimeTtsManager

/-- The synchronous head of `doSpeak`: `this.isSpeaking = true;
this.lastSpeakTime = Date.now()`. The state at this point is the state in
which the utterance is in flight. -/
def doSpeakStart (st : TtsState) (now : Nat) : TtsState :=
  { st with isSpeaking := true, lastSpeakTime := now }

/-- Full `doSpeak`, through completion of the awaited promise. Both the
`onDone` and the `onError` callback resolve the promise, and the `finally`
clause clears the speaking flag, so both outcomes land in the same state. -/
def doSpeak (st : TtsState) (now : Nat) (text : String)
    (outcome : SpeechOutcome) : TtsState :=
  let st1 := doSpeakStart st now
  match outcome with
  | SpeechOutcome.done => { st1 with isSpeaking := false }
  | SpeechOutcome.error => { st1 with isSpeaking := false }

/-- JS truthiness of `changes?.has_significant_change`: an absent `changes`
object reads as not significant. -/
def significantChange (changes : Option RealtimeChanges) : Bool :=
  match changes with
  | none => false
  | some c => c.has_significant_change

/-- `speakNavigationSummary`, up to the start of the utterance. Returns the
decision and the state at the moment `doSpeak` records the start (or the
unchanged state when a guard returned early). -/
def speakNavigationSummary (st : TtsState) (now : Nat) (summary : String)
    (changes : Option RealtimeChanges) : SpeakOutcome × TtsState :=
  if significantChange changes = false ∧ summary = st.lastSummary then
    (SpeakOutcome.skip, st)
  else if summary = "" then
    (SpeakOutcome.skip, st)
  else if now - st.lastSpeakTime < ttsMinInterval then
    (SpeakOutcome.skip, st)
  else if st.isSpeaking = true then
    (SpeakOutcome.skip, st)
  else
    let st1 := { st with lastSummary := summary }
    (SpeakOutcome.speak summary false, doSpeakStart st1 now)

/-- `speakRiskAlert`, up to the start of the utterance. A critical alert
first runs `await Speech.stop(); this.isSpeaking = false` and then speaks
unconditionally; any other priority is subject to the cooldown and the
in-progress guard. -/
def speakRiskAlert (st : TtsState) (now : Nat)
    (riskData : Option RiskData) : SpeakOutcome × TtsState :=
  match riskData with
  | none => (SpeakOutcome.skip, st)
  | some rd =>
    if rd.has_danger = false ∨ rd.alert_text = "" then
      (SpeakOutcome.skip, st)
    else if rd.priority = "critical" then
      let st1 := { st with isSpeaking := false }
      (SpeakOutcome.speak rd.alert_text true, doSpeakStart st1 now)
    else if now - st.lastSpeakTime < ttsMinInterval then
      (SpeakOutcome.skip, st)
    else if st.isSpeaking = true then
      (SpeakOutcome.skip, st)
    else
      (SpeakOutcome.speak rd.alert_text false, doSpeakStart st now)

/-- `speakResult`: dispatch on the active mode. -/
def speakResult (st : TtsState) (now : Nat) (summary : String)
    (changes : Option RealtimeChanges) (riskData : Option RiskData) :
    SpeakOutcome × TtsState :=
  if st.mode = NaviaMode.riesgo then
    speakRiskAlert st now riskData
  else
    speakNavigationSummary st now summary changes

/-- `stop()`: Speech.stop() and clear the speaking flag. -/
def stop (st : TtsState) : TtsState :=
  { st with isSpeaking := false }

/-- `reset()`: `this.stop(); this.lastSpeakTime = 0; this.lastSummary = ''`. -/
def reset (st : TtsState) : TtsState :=
  { stop st with lastSpeakTime := 0, lastSummary := "" }

end RealtimeTtsManager

/-- Claim C1: in riesgo mode, a DetectionResult whose risk data has
has_danger, priority "critical" and non-empty alert text starts an
utterance of the alert text immediately — the in-progress utterance is
forcibly stopped first, and the decision holds for every starting state,
so it ignores both the 3000 ms cooldown and the current speaking flag. -/
theorem C1_critical_never_blocked (st : TtsState) (now : Nat)
    (summary : String) (changes : Option RealtimeChanges) (rd : RiskData)
    (hm : st.mode = NaviaMode.riesgo) (hd : rd.has_danger = true)
    (hp : rd.priority = "critical") (ht : rd.alert_text ≠ "") :
    (RealtimeTtsManager.speakResult st now summary changes (some rd)).fst =
      SpeakOutcome.speak rd.alert_text true ∧
    (RealtimeTtsManager.speakResult st now summary changes (some rd)).snd.isSpeaking = true ∧
    (RealtimeTtsManager.speakResult st now summary changes (some rd)).snd.lastSpeakTime = now := by
  simp [RealtimeTtsManager.speakResult, RealtimeTtsManager.speakRiskAlert,
    RealtimeTtsManager.doSpeakStart, hm, hd, hp, ht]

/-- Witness for C1 at a concrete state: speaking, mid-cooldown. -/
theorem C1_witness :
    (RealtimeTtsManager.speakResult
      { lastSpeakTime := 1000, isSpeaking := true,
        mode := NaviaMode.riesgo, lastSummary := "x" }
      1500 "s" none
      (some { has_danger := true, priority := "critical",
              alert_text := "alto" })).fst =
      SpeakOutcome.speak "alto" true ∧
    (RealtimeTtsManager.speakResult
      { lastSpeakTime := 1000, isSpeaking := true,
        mode := NaviaMode.riesgo, lastSummary := "x" }
      1500 "s" none
      (some { has_danger := true, priority := "critical",
              alert_text := "alto" })).snd.isSpeaking = true ∧
    (RealtimeTtsManager.speakResult
      { lastSpeakTime := 1000, isSpeaking := true,
        mode := NaviaMode.riesgo, lastSummary := "x" }
      1500 "s" none
      (some { has_danger := true, priority := "critical",
              alert_text := "alto" })).snd.lastSpeakTime = 1500 :=
  C1_critical_never_blocked _ 1500 "s" none _ rfl rfl rfl (by decide)

/-- Claim C2: in navigation mode, a DetectionResult arriving strictly less
than 3000 ms after the last utterance started produces no utterance and
leaves the arbiter state unchanged, whatever the summary, the
significant-change flag and the risk payload. -/
theorem C2_navigation_cooldown_blocks (st : TtsState) (now : Nat)
    (summary : String) (changes : Option RealtimeChanges)
    (rd : Option RiskData)
    (hm : st.mode = NaviaMode.navegacion)
    (hcool : now < st.lastSpeakTime + ttsMinInterval) :
    RealtimeTtsManager.speakResult st now summary changes rd =
      (SpeakOutcome.skip, st) := by
  unfold RealtimeTtsManager.speakResult
  rw [if_neg (by rw [hm]; intro h; exact absurd h (by decide))]
  unfold RealtimeTtsManager.speakNavigationSummary
  split
  · rfl
  · split
    · rfl
    · rw [if_pos (by simp only [ttsMinInterval] at hcool ⊢; omega)]

/-- Witness for C2 at a concrete state: differing summary, significant
change flagged, 2999 ms elapsed. -/
theorem C2_witness :
    RealtimeTtsManager.speakResult
      { lastSpeakTime := 1000, isSpeaking := false,
        mode := NaviaMode.navegacion, lastSummary := "old" }
      3999 "new"
      (some { appeared := ["a"], disappeared := [],
              has_significant_change := true })
      none =
      (SpeakOutcome.skip,
       { lastSpeakTime := 1000, isSpeaking := false,
         mode := NaviaMode.navegacion, lastSummary := "old" }) :=
  C2_navigation_cooldown_blocks _ 3999 "new" _ none rfl (by decide)

/-- Claim C7: reset() is idempotent — applying it twice equals applying it
once — and it leaves the speaking flag false, the last-spoken summary empty
and the last-speak time zero. -/
theorem C7_reset_idempotent (st : TtsState) :
    RealtimeTtsManager.reset (RealtimeTtsManager.reset st) =
      RealtimeTtsManager.reset st ∧
    (RealtimeTtsManager.reset st).isSpeaking = false ∧
    (RealtimeTtsManager.reset st).lastSummary = "" ∧
    (RealtimeTtsManager.reset st).lastSpeakTime = 0 :=
  ⟨rfl, rfl, rfl, rfl⟩

/-- Claim C8: doSpeak is total over both playback outcomes — the error
callback resolves the promise just like normal completion — and in either
case the `finally` clause leaves the speaking flag false, so a failed
utterance never wedges the arbiter. -/
theorem C8_speech_errors_recovered (st : TtsState) (now : Nat)
    (text : String) (outcome : SpeechOutcome) :
    (RealtimeTtsManager.doSpeak st now text outcome).isSpeaking = false ∧
    RealtimeTtsManager.doSpeak st now text outcome =
      RealtimeTtsManager.doSpeak st now text SpeechOutcome.done := by
  cases outcome <;> exact ⟨rfl, rfl⟩

/-- Socket status values surfaced through the status callback. -/
inductive WsStatus where
  | connecting
  | connected
  | disconnected
  | error
deriving DecidableEq

/-- Outbound wire message produced by the session, before JSON encoding. -/
inductive OutMsg where
  | config (mode : NaviaMode)
  | frame (data : String) (frame_id : Nat) (timestamp : Nat)
deriving DecidableEq

/-- Observable output of one session step: a status-callback firing or an
outbound wire message being sent on the socket. -/
inductive WsOut where
  | status (s : WsStatus)
  | msg (m : OutMsg)
deriving DecidableEq

/-- Mutable fields of `RealtimeWebSocket`. `socketOpen` models
`this.ws?.readyState === WebSocket.OPEN`; `hasSocket` models
`this.ws !== null`; `reconnectTimer` carries the delay in ms of the pending
reconnect timer, when one is armed. -/
structure WsState where
  mode : NaviaMode
  reconnectAttempts : Nat
  maxReconnectAttempts : Nat
  frameId : Nat
  socketOpen : Bool
  hasSocket : Bool
  reconnectTimer : Option Nat
deriving DecidableEq

/-- State of a freshly constructed `RealtimeWebSocket` (field initialisers:
0 attempts, cap 5, frameId 0, no socket, no timer). -/
def initWsState (mode : NaviaMode) : WsState :=
  { mode := mode, reconnectAttempts := 0, maxReconnectAttempts := 5,
    frameId := 0, socketOpen := false, hasSocket := false,
    reconnectTimer := none }

/-- External events driving the session: the public calls `connect`,
`setMode`, `sendFrame`, `disconnect`, and the socket callbacks `onopen`,
`onclose`, `onerror`. `sendFrame` carries the base64 payload and the
current clock reading (Date.now()). -/
inductive WsEvent where
  | connect
  | onopen
  | onclose
  | onerror
  | setMode (m : NaviaMode)
  | sendFrame (data : String) (now : Nat)
  | disconnect
deriving DecidableEq

namespace RealtimeWebSocket

/-- `attemptReconnect()`: bail out once the attempt counter has reached the
cap, otherwise increment it and arm the reconnect timer with delay
`2000 * reconnectAttempts` (the incremented value). -/
def attemptReconnect (st : WsState) : WsState :=
  if st.reconnectAttempts ≥ st.maxReconnectAttempts then st
  else
    let n := st.reconnectAttempts + 1
    { st with reconnectAttempts := n, reconnectTimer := some (2000 * n) }

/-- One step of the session. Outputs are listed in the order the source
produces them within the handler. -/
def wsStep (st : WsState) (ev : WsEvent) : WsState × List WsOut :=
  match ev with
  | WsEvent.connect =>
      ({ st with hasSocket := true, socketOpen := false },
       [WsOut.status WsStatus.connecting])
  | WsEvent.onopen =>
      ({ st with reconnectAttempts := 0, socketOpen := true },
       [WsOut.status WsStatus.connected, WsOut.msg (OutMsg.config st.mode)])
  | WsEvent.onclose =>
      (attemptReconnect { st with socketOpen := false },
       [WsOut.status WsStatus.disconnected])
  | WsEvent.onerror =>
      (st, [WsOut.status WsStatus.error])
  | WsEvent.setMode m =>
      if st.socketOpen = true then
        ({ st with mode := m }, [WsOut.msg (OutMsg.config m)])
      else
        ({ st with mode := m }, [])
  | WsEvent.sendFrame data now =>
      if st.socketOpen = true then
        ({ st with frameId := st.frameId + 1 },
         [WsOut.msg (OutMsg.frame data (st.frameId + 1) now)])
      else
        (st, [])
  | WsEvent.disconnect =>
      ({ st with maxReconnectAttempts := 0, reconnectTimer := none,
                 socketOpen := false, hasSocket := false }, [])

/-- Run a list of events, concatenating the outputs. -/
def wsRun (st : WsState) : List WsEvent → WsState × List WsOut
  | [] => (st, [])
  | ev :: evs =>
      let s1 := wsStep st ev
      let s2 := wsRun s1.fst evs
      (s2.fst, s1.snd ++ s2.snd)

end RealtimeWebSocket

/-- A JSON scalar as used by the two outbound message shapes. -/
inductive JsonValue where
  | str (s : String)
  | num (n : Nat)
deriving DecidableEq

/-- The wire spelling of each mode literal. -/
def modeString : NaviaMode → String
  | NaviaMode.navegacion => "navegacion"
  | NaviaMode.exploracion => "exploracion"
  | NaviaMode.lectura => "lectura"
  | NaviaMode.riesgo => "riesgo"

/-- The JSON object each outbound message serialises to, as an ordered
key/value list exactly as the object literals are written in the source:
`JSON.stringify({ type: 'config', mode })` and
`JSON.stringify({ type: 'frame', data, frame_id, timestamp })`. -/
def wireFields : OutMsg → List (String × JsonValue)
  | OutMsg.config m =>
      [("type", JsonValue.str "config"), ("mode", JsonValue.str (modeString m))]
  | OutMsg.frame d fid ts =>
      [("type", JsonValue.str "frame"), ("data", JsonValue.str d),
       ("frame_id", JsonValue.num fid), ("timestamp", JsonValue.num ts)]

/-- Capture-scheduler state: the `isCapturing` ref of the hook's interval
callback. -/
structure SchedState where
  isCapturing : Bool
deriving DecidableEq

/-- Result of the awaited `takePictureAsync`: it resolved with a photo
(whose base64 field may be absent), or it threw. -/
inductive CaptureOutcome where
  | photo (base64 : Option String)
  | failed
deriving DecidableEq

/-- Observable actions of the scheduler: a capture was started, or a
captured frame was handed to `sendFrame`. -/
inductive SchedOut where
  | captureStarted
  | frameSent (data : String)
deriving DecidableEq

/-- One firing of the capture interval timer, up to the `await`: if a
capture is already in flight or the camera ref is empty the tick returns
at once (nothing captured, nothing sent, nothing queued); otherwise the
in-flight flag is set and the capture starts. -/
def schedTick (st : SchedState) (cameraReady : Bool) : SchedState × List SchedOut :=
  if st.isCapturing = true ∨ cameraReady = false then (st, [])
  else ({ isCapturing := true }, [SchedOut.captureStarted])

/-- Completion of an in-flight capture: on success with a base64 payload
and a live socket ref the frame is handed to `sendFrame`; a missing
payload or a thrown error sends nothing; the `finally` clause clears the
in-flight flag in every case. -/
def captureDone (st : SchedState) (res : CaptureOutcome) (wsAlive : Bool) :
    SchedState × List SchedOut :=
  let outs : List SchedOut :=
    match res with
    | CaptureOutcome.photo (some b64) =>
        if wsAlive = true then [SchedOut.frameSent b64] else []
    | CaptureOutcome.photo none => []
    | CaptureOutcome.failed => []
  ({ st with isCapturing := false }, outs)

open RealtimeWebSocket

/-- The frame identifiers carried by the frame messages of an output
trace, in order. -/
def frameIds (outs : List WsOut) : List Nat :=
  outs.filterMap fun o =>
    match o with
    | WsOut.msg (OutMsg.frame _ fid _) => some fid
    | _ => none

theorem frameIds_append (a b : List WsOut) :
    frameIds (a ++ b) = frameIds a ++ frameIds b := by
  simp [frameIds, List.filterMap_append]

theorem frameIds_wsStep (st : WsState) (ev : WsEvent) :
    st.frameId ≤ (wsStep st ev).fst.frameId ∧
    frameIds (wsStep st ev).snd =
      List.range' (st.frameId + 1) ((wsStep st ev).fst.frameId - st.frameId) := by
  cases ev with
  | connect => simp [wsStep, frameIds]
  | onopen => simp [wsStep, frameIds]
  | onclose =>
      simp only [wsStep]
      unfold attemptReconnect
      split <;> simp [frameIds]
  | onerror => simp [wsStep, frameIds]
  | setMode m =>
      simp only [wsStep]
      split <;> simp [frameIds]
  | sendFrame d t =>
      simp only [wsStep]
      split
      · simp [frameIds, Nat.add_sub_cancel_left, List.range'_one]
      · simp [frameIds]
  | disconnect => simp [wsStep, frameIds]

theorem frameIds_wsRun (evs : List WsEvent) (st : WsState) :
    st.frameId ≤ (wsRun st evs).fst.frameId ∧
    frameIds (wsRun st evs).snd =
      List.range' (st.frameId + 1) ((wsRun st evs).fst.frameId - st.frameId) := by
  induction evs generalizing st with
  | nil => simp [wsRun, frameIds]
  | cons ev evs ih =>
      obtain ⟨hle1, hids1⟩ := frameIds_wsStep st ev
      obtain ⟨hle2, hids2⟩ := ih (wsStep st ev).fst
      constructor
      · show st.frameId ≤ (wsRun (wsStep st ev).fst evs).fst.frameId
        omega
      · show frameIds ((wsStep st ev).snd ++ (wsRun (wsStep st ev).fst evs).snd) =
          List.range' (st.frameId + 1)
            ((wsRun (wsStep st ev).fst evs).fst.frameId - st.frameId)
        rw [frameIds_append, hids1, hids2]
        have e1 : (wsStep st ev).fst.frameId + 1 =
            (st.frameId + 1) + 1 * ((wsStep st ev).fst.frameId - st.frameId) := by
          omega
        rw [e1, List.range'_append]
        have e2 : ((wsRun (wsStep st ev).fst evs).fst.frameId -
              (wsStep st ev).fst.frameId) +
            ((wsStep st ev).fst.frameId - st.frameId) =
            (wsRun (wsStep st ev).fst evs).fst.frameId - st.frameId := by
          omega
        rw [e2]

theorem wsRun_cons (st : WsState) (ev : WsEvent) (evs : List WsEvent) :
    wsRun st (ev :: evs) =
      ((wsRun (wsStep st ev).fst evs).fst,
       (wsStep st ev).snd ++ (wsRun (wsStep st ev).fst evs).snd) := rfl

theorem setModes_closed (ms : List NaviaMode) (mlast : NaviaMode)
    (st : WsState) (hopen : st.socketOpen = false) :
    wsRun st ((ms ++ [mlast]).map WsEvent.setMode) =
      ({ st with mode := mlast }, []) := by
  induction ms generalizing st with
  | nil => simp [wsRun, wsStep, hopen]
  | cons a as ih =>
      have h1 : wsStep st (WsEvent.setMode a) = ({ st with mode := a }, []) := by
        simp [wsStep, hopen]
      show wsRun st (List.map WsEvent.setMode (a :: (as ++ [mlast]))) = _
      rw [List.map_cons, wsRun_cons, h1]
      simpa using ih { st with mode := a } hopen

theorem wsStep_attempts_le (st : WsState) (ev : WsEvent)
    (h1 : st.reconnectAttempts ≤ 5) (h2 : st.maxReconnectAttempts ≤ 5) :
    (wsStep st ev).fst.reconnectAttempts ≤ 5 ∧
    (wsStep st ev).fst.maxReconnectAttempts ≤ 5 := by
  cases ev with
  | connect => simpa [wsStep] using ⟨h1, h2⟩
  | onopen => simpa [wsStep] using h2
  | onclose =>
      simp only [wsStep]
      unfold attemptReconnect
      split
      · exact ⟨h1, h2⟩
      · next h =>
          have h3 : ¬ st.maxReconnectAttempts ≤ st.reconnectAttempts := h
          exact ⟨by show st.reconnectAttempts + 1 ≤ 5; omega,
                 by show st.maxReconnectAttempts ≤ 5; exact h2⟩
  | onerror => simpa [wsStep] using ⟨h1, h2⟩
  | setMode m =>
      simp only [wsStep]
      split <;> simpa using ⟨h1, h2⟩
  | sendFrame d t =>
      simp only [wsStep]
      split <;> simpa using ⟨h1, h2⟩
  | disconnect => simpa [wsStep] using h1

theorem wsRun_attempts_le (evs : List WsEvent) (st : WsState)
    (h1 : st.reconnectAttempts ≤ 5) (h2 : st.maxReconnectAttempts ≤ 5) :
    (wsRun st evs).fst.reconnectAttempts ≤ 5 ∧
    (wsRun st evs).fst.maxReconnectAttempts ≤ 5 := by
  induction evs generalizing st with
  | nil => simpa [wsRun] using ⟨h1, h2⟩
  | cons ev evs ih =>
      obtain ⟨g1, g2⟩ := wsStep_attempts_le st ev h1 h2
      simpa [wsRun] using ih (wsStep st ev).fst g1 g2

theorem wsStep_disabled (st : WsState) (ev : WsEvent)
    (h1 : st.maxReconnectAttempts = 0) (h2 : st.reconnectTimer = none) :
    (wsStep st ev).fst.maxReconnectAttempts = 0 ∧
    (wsStep st ev).fst.reconnectTimer = none := by
  cases ev with
  | connect => simpa [wsStep] using ⟨h1, h2⟩
  | onopen => simpa [wsStep] using ⟨h1, h2⟩
  | onclose =>
      simp only [wsStep]
      unfold attemptReconnect
      rw [if_pos (by simp [h1])]
      simpa using ⟨h1, h2⟩
  | onerror => simpa [wsStep] using ⟨h1, h2⟩
  | setMode m =>
      simp only [wsStep]
      split <;> simpa using ⟨h1, h2⟩
  | sendFrame d t =>
      simp only [wsStep]
      split <;> simpa using ⟨h1, h2⟩
  | disconnect => simp [wsStep]

theorem wsRun_disabled (evs : List WsEvent) (st : WsState)
    (h1 : st.maxReconnectAttempts = 0) (h2 : st.reconnectTimer = none) :
    (wsRun st evs).fst.maxReconnectAttempts = 0 ∧
    (wsRun st evs).fst.reconnectTimer = none := by
  induction evs generalizing st with
  | nil => simpa [wsRun] using ⟨h1, h2⟩
  | cons ev evs ih =>
      obtain ⟨g1, g2⟩ := wsStep_disabled st ev h1 h2
      simpa [wsRun] using ih (wsStep st ev).fst g1 g2

/-- Claim C3: for any sequence of setMode calls made while the socket is
not open, no message is sent during those calls, the stored mode ends up
being the most recently set one, the configuration message the session
sends the moment the socket opens carries exactly that mode, and before
the open no frame can be sent. -/
theorem C3_last_mode_wins (st : WsState) (ms : List NaviaMode)
    (mlast : NaviaMode) (hopen : st.socketOpen = false) :
    (wsRun st ((ms ++ [mlast]).map WsEvent.setMode)).snd = [] ∧
    (wsRun st ((ms ++ [mlast]).map WsEvent.setMode)).fst.mode = mlast ∧
    (wsStep (wsRun st ((ms ++ [mlast]).map WsEvent.setMode)).fst
        WsEvent.onopen).snd =
      [WsOut.status WsStatus.connected, WsOut.msg (OutMsg.config mlast)] ∧
    (∀ d t, (wsStep (wsRun st ((ms ++ [mlast]).map WsEvent.setMode)).fst
        (WsEvent.sendFrame d t)).snd = []) := by
  rw [setModes_closed ms mlast st hopen]
  refine ⟨rfl, rfl, rfl, ?_⟩
  intro d t
  simp [wsStep, hopen]

/-- Witness for C3: two setMode calls while disconnected; the open-time
configuration message carries the second mode. -/
theorem C3_witness :
    (wsRun (initWsState NaviaMode.navegacion)
      (([NaviaMode.lectura] ++ [NaviaMode.riesgo]).map WsEvent.setMode)).snd = [] ∧
    (wsRun (initWsState NaviaMode.navegacion)
      (([NaviaMode.lectura] ++ [NaviaMode.riesgo]).map WsEvent.setMode)).fst.mode =
      NaviaMode.riesgo ∧
    (wsStep (wsRun (initWsState NaviaMode.navegacion)
      (([NaviaMode.lectura] ++ [NaviaMode.riesgo]).map WsEvent.setMode)).fst
        WsEvent.onopen).snd =
      [WsOut.status WsStatus.connected, WsOut.msg (OutMsg.config NaviaMode.riesgo)] ∧
    (∀ d t, (wsStep (wsRun (initWsState NaviaMode.navegacion)
      (([NaviaMode.lectura] ++ [NaviaMode.riesgo]).map WsEvent.setMode)).fst
        (WsEvent.sendFrame d t)).snd = []) :=
  C3_last_mode_wins (initWsState NaviaMode.navegacion)
    [NaviaMode.lectura] NaviaMode.riesgo rfl

/-- Claim C4: with the attempt cap at its constructed value 5, a socket
close after N-1 previous consecutive attempts (N-1 < 5) arms the reconnect
timer with delay 2000·N and bumps the counter to N; once 5 attempts have
been made a further close arms nothing; a successful open resets the
counter to zero; and along any event trace from a fresh instance the
counter never exceeds 5, so no 6th attempt is ever scheduled. -/
theorem C4_reconnect_backoff (st : WsState)
    (h5 : st.maxReconnectAttempts = 5) :
    (st.reconnectAttempts < 5 →
      (wsStep st WsEvent.onclose).fst.reconnectTimer =
        some (2000 * (st.reconnectAttempts + 1)) ∧
      (wsStep st WsEvent.onclose).fst.reconnectAttempts =
        st.reconnectAttempts + 1) ∧
    (5 ≤ st.reconnectAttempts →
      (wsStep st WsEvent.onclose).fst.reconnectTimer = st.reconnectTimer ∧
      (wsStep st WsEvent.onclose).fst.reconnectAttempts =
        st.reconnectAttempts) ∧
    (wsStep st WsEvent.onopen).fst.reconnectAttempts = 0 ∧
    (∀ m evs, (wsRun (initWsState m) evs).fst.reconnectAttempts ≤ 5) := by
  refine ⟨?_, ?_, rfl, ?_⟩
  · intro hlt
    simp only [wsStep]
    unfold attemptReconnect
    rw [if_neg (by simp only []; omega)]
    exact ⟨rfl, rfl⟩
  · intro hge
    simp only [wsStep]
    unfold attemptReconnect
    rw [if_pos (by simp only []; omega)]
    exact ⟨rfl, rfl⟩
  · intro m evs
    exact (wsRun_attempts_le evs (initWsState m) (by simp [initWsState])
      (by simp [initWsState])).1

/-- Witness for C4: third attempt scheduled at 6000 ms; a sixth close
schedules nothing; open resets the counter. -/
theorem C4_witness :
    ((wsStep { initWsState NaviaMode.navegacion with reconnectAttempts := 2 }
        WsEvent.onclose).fst.reconnectTimer = some 6000 ∧
      (wsStep { initWsState NaviaMode.navegacion with reconnectAttempts := 2 }
        WsEvent.onclose).fst.reconnectAttempts = 3) ∧
    ((wsStep { initWsState NaviaMode.navegacion with reconnectAttempts := 5 }
        WsEvent.onclose).fst.reconnectTimer = none ∧
      (wsStep { initWsState NaviaMode.navegacion with reconnectAttempts := 5 }
        WsEvent.onclose).fst.reconnectAttempts = 5) ∧
    (wsStep { initWsState NaviaMode.navegacion with reconnectAttempts := 2 }
        WsEvent.onopen).fst.reconnectAttempts = 0 :=
  ⟨(C4_reconnect_backoff _ rfl).1 (by decide),
   (C4_reconnect_backoff
      { initWsState NaviaMode.navegacion with reconnectAttempts := 5 }
      rfl).2.1 (by decide),
   (C4_reconnect_backoff _ rfl).2.2.1⟩

/-- Claim C5, the amended backpressure invariant: a timer tick firing while
the previous capture is still in flight changes nothing and emits nothing
(no capture starts, no frame is handed to sendFrame, nothing is queued); a
tick firing while idle with the camera ready sets the in-flight flag as it
starts the capture; and completion — successful or failed — always clears
the flag. -/
theorem C5_backpressure (st : SchedState) (cam : Bool)
    (h : st.isCapturing = true) :
    schedTick st cam = (st, []) ∧
    (∀ st2, st2.isCapturing = false →
      schedTick st2 true = ({ isCapturing := true }, [SchedOut.captureStarted])) ∧
    (∀ st3 res ws, (captureDone st3 res ws).fst.isCapturing = false) := by
  refine ⟨?_, ?_, ?_⟩
  · simp [schedTick, h]
  · intro st2 h2
    simp [schedTick, h2]
  · intro st3 res ws
    rfl

/-- Witness for C5: a busy tick is skipped whole; an idle tick starts a
capture; a failed capture clears the flag. -/
theorem C5_witness :
    schedTick { isCapturing := true } true = ({ isCapturing := true }, []) ∧
    schedTick { isCapturing := false } true =
      ({ isCapturing := true }, [SchedOut.captureStarted]) ∧
    (captureDone { isCapturing := true } CaptureOutcome.failed true).fst.isCapturing =
      false :=
  ⟨(C5_backpressure { isCapturing := true } true rfl).1,
   (C5_backpressure { isCapturing := true } true rfl).2.1
     { isCapturing := false } rfl,
   (C5_backpressure { isCapturing := true } true rfl).2.2
     { isCapturing := true } CaptureOutcome.failed true⟩

/-- Claim C6 counterexample: the configuration message the session sends on
open is tagged with a field named "type", not "kind" — its serialised key
list is ["type", "mode"], which contains no "kind" key, refuting the claim
that each outbound message carries a 'kind' field. -/
theorem C6_counterexample :
    WsOut.msg (OutMsg.config NaviaMode.navegacion) ∈
      (wsStep (initWsState NaviaMode.navegacion) WsEvent.onopen).snd ∧
    (wireFields (OutMsg.config NaviaMode.navegacion)).map Prod.fst =
      ["type", "mode"] ∧
    ¬ ("kind" ∈ (wireFields (OutMsg.config NaviaMode.navegacion)).map Prod.fst) := by
  refine ⟨?_, rfl, ?_⟩
  · simp [wsStep, initWsState]
  · decide

/-- Claim C6 amended: every outbound wire message the session produces is
JSON of exactly one of the two shapes (tag field named "type"):
type:"config" with a mode string, or type:"frame" with data (base64),
frame_id (number) and timestamp (number, ms). -/
theorem C6_outbound_shapes (st : WsState) (ev : WsEvent) (m : OutMsg)
    (h : WsOut.msg m ∈ (wsStep st ev).snd) :
    (∃ mo, wireFields m =
      [("type", JsonValue.str "config"),
       ("mode", JsonValue.str (modeString mo))]) ∨
    (∃ d fid ts, wireFields m =
      [("type", JsonValue.str "frame"), ("data", JsonValue.str d),
       ("frame_id", JsonValue.num fid), ("timestamp", JsonValue.num ts)]) := by
  cases m with
  | config mo => exact Or.inl ⟨mo, rfl⟩
  | frame d fid ts => exact Or.inr ⟨d, fid, ts, rfl⟩

/-- Witness for C6: the open-time configuration message has the config
shape. -/
theorem C6_witness :
    (∃ mo, wireFields (OutMsg.config NaviaMode.navegacion) =
      [("type", JsonValue.str "config"),
       ("mode", JsonValue.str (modeString mo))]) ∨
    (∃ d fid ts, wireFields (OutMsg.config NaviaMode.navegacion) =
      [("type", JsonValue.str "frame"), ("data", JsonValue.str d),
       ("frame_id", JsonValue.num fid), ("timestamp", JsonValue.num ts)]) :=
  C6_outbound_shapes (initWsState NaviaMode.navegacion) WsEvent.onopen
    (OutMsg.config NaviaMode.navegacion)
    (by simp [wsStep, initWsState])

/-- Claim C9: over the lifetime of one instance, the frame identifiers of
the frames actually sent are exactly the consecutive integers 1, 2, 3, …:
after any event trace from the fresh state, the trace's frame messages
carry ids range' 1 k where k is the final counter value — so dropped
sendFrame calls leave the counter untouched and reconnections never reset
it. -/
theorem C9_frame_ids_consecutive (m : NaviaMode) (evs : List WsEvent) :
    frameIds (wsRun (initWsState m) evs).snd =
      List.range' 1 ((wsRun (initWsState m) evs).fst.frameId) := by
  have h := (frameIds_wsRun evs (initWsState m)).2
  simpa [initWsState] using h

/-- Claim C10: disconnect() zeroes the attempt cap for good — after a
disconnect, whatever events follow (including further connect calls and
opens), the cap stays 0, the reconnect timer stays disarmed, and a socket
close schedules no reconnection attempt and counts none. -/
theorem C10_disconnect_disables_reconnect (st : WsState)
    (evs : List WsEvent) :
    (wsRun (wsStep st WsEvent.disconnect).fst evs).fst.maxReconnectAttempts = 0 ∧
    (wsRun (wsStep st WsEvent.disconnect).fst evs).fst.reconnectTimer = none ∧
    (wsStep (wsRun (wsStep st WsEvent.disconnect).fst evs).fst
        WsEvent.onclose).fst.reconnectTimer = none ∧
    (wsStep (wsRun (wsStep st WsEvent.disconnect).fst evs).fst
        WsEvent.onclose).fst.reconnectAttempts =
      (wsRun (wsStep st WsEvent.disconnect).fst evs).fst.reconnectAttempts := by
  obtain ⟨g1, g2⟩ := wsRun_disabled evs (wsStep st WsEvent.disconnect).fst rfl rfl
  set st2 := (wsRun (wsStep st WsEvent.disconnect).fst evs).fst with hst2
  refine ⟨g1, g2, ?_, ?_⟩
  · simp only [wsStep]
    unfold attemptReconnect
    rw [if_pos (by simp [g1])]
    exact g2
  · simp only [wsStep]
    unfold attemptReconnect
    rw [if_pos (by simp [g1])]
